import Mathlib

/-!
Verification of the efx-doc documentation browser (main.go) against its
natural-language specification.

The Go program is shallowly embedded: the filesystem is a partial map from
path strings to file contents (`FS`), the Bubble Tea model struct and the
package-level globals become Lean structures, and each `Update` branch the
claims touch becomes a pure state-transition function.  External
collaborators (the glamour terminal renderer, the goldmark HTML converter,
the YAML parser, the interactive workspace selector, and
`generateWelcomeContent`, which walks the filesystem) are passed in as
function parameters, mirroring the spec's "external collaborators" boundary.

Go string primitives (`strings.ReplaceAll`, `strings.Contains`,
`strings.ToLower`) are re-implemented over `List Char` so that every
definition evaluates inside the kernel.
-/

namespace EfxDoc

/-- Boolean list-prefix test, used to implement the Go string primitives. -/
def isPrefixList : List Char → List Char → Bool
  | [], _ => true
  | _ :: _, [] => false
  | a :: as, b :: bs => a == b && isPrefixList as bs

/-- Worker for `strReplaceAll`: fuel-indexed so the recursion is structural.
The fuel is the length of the subject, which bounds the number of steps. -/
def replaceAllAux (old new : List Char) : Nat → List Char → List Char
  | 0, s => s
  | _ + 1, [] => []
  | fuel + 1, c :: rest =>
    if old ≠ [] ∧ isPrefixList old (c :: rest) = true then
      new ++ replaceAllAux old new fuel (rest.drop (old.length - 1))
    else
      c :: replaceAllAux old new fuel rest

/-- Go `strings.ReplaceAll(s, old, new)` for non-empty `old` (every use in
main.go replaces a single-character pattern): replaces all non-overlapping
occurrences left to right. -/
def strReplaceAll (s old new : String) : String :=
  ⟨replaceAllAux old.data new.data s.data.length s.data⟩

/-- Go `strings.ToLower` (per-character, which agrees on ASCII input). -/
def strToLower (s : String) : String := ⟨s.data.map Char.toLower⟩

/-- Worker for `strContains`. -/
def containsList (needle : List Char) : List Char → Bool
  | [] => isPrefixList needle []
  | c :: rest => isPrefixList needle (c :: rest) || containsList needle rest

/-- Go `strings.Contains(s, sub)`. -/
def strContains (s sub : String) : Bool := containsList sub.data s.data

/-- Go `filepath.Join(dir, name)` for already-clean components. -/
def filepathJoin (dir name : String) : String := dir ++ "/" ++ name

/-- ExpandTilde from main.go: replaces a leading `~/` with the home
directory (the home directory is a parameter of the model). -/
def expandTilde (home path : String) : String :=
  if isPrefixList ['~', '/'] path.data = true then filepathJoin home ⟨path.data.drop 2⟩
  else path

/-- Reference from main.go (one entry of a category in docs.yaml). -/
structure Reference where
  name : String
  description : String
deriving DecidableEq, Repr

/-- Category from main.go. -/
structure Category where
  name : String
  references : List Reference
deriving DecidableEq, Repr

/-- Config from main.go (the parsed docs.yaml). -/
structure Config where
  name : String
  description : String
  categories : List Category
deriving DecidableEq, Repr

/-- Workspace from main.go (one entry of workspaces.yaml; the style paths
are irrelevant to the claims and omitted). -/
structure Workspace where
  name : String
  path : String
deriving DecidableEq, Repr

/-- item from main.go (one row of the document index). -/
structure Item where
  name : String
  description : String
  category : String
deriving DecidableEq, Repr

/-- The filesystem: maps a path to the file's content, or `none` when
`os.ReadFile` fails for that path. -/
abbrev FS := String → Option String

/-- The category→folder lookup table that appears (identically) in both
`loadDoc` and `loadDocContentFromDisk`; a Go map lookup of a missing key
yields the zero value `""`. -/
def categoryMapLookup (category : String) : String :=
  if category = "Core" then "core"
  else if category = "Responsive" then "responsive"
  else if category = "Helpers" then "helpers"
  else if category = "Components" then "components"
  else if category = "Templates" then "templates"
  else if category = "Player" then "player"
  else ""

/-- The folder fallback as written in both resolvers: unmapped categories
fall back to `"core"`. -/
def folderOf (category : String) : String :=
  let folder := categoryMapLookup category
  if folder = "" then "core" else folder

/-- The `possibleNames` list of `loadDoc` (terminal resolver): three
candidates. -/
def tuiPossibleNames (name : String) : List String :=
  [name ++ ".md",
   strReplaceAll name " " "-" ++ ".md",
   strReplaceAll name " " "" ++ ".md"]

/-- The `possibleNames` list of `loadDocContentFromDisk` (web resolver):
five candidates. -/
def webPossibleNames (docName : String) : List String :=
  [docName ++ ".md",
   strReplaceAll docName " " "-" ++ ".md",
   strReplaceAll docName " " "" ++ ".md",
   strReplaceAll docName "-" " " ++ ".md",
   strReplaceAll docName "-" "" ++ ".md"]

/-- The probe loop of `loadDoc`: `content, _ = os.ReadFile(fullPath);
if content != nil { foundPath = fullPath; break }` — first successful read
wins, with no non-emptiness requirement; yields (content, foundPath). -/
def loadDocProbe (fs : FS) (docsDir : String) : List String → Option (String × String)
  | [] => none
  | fileName :: rest =>
    match fs (filepathJoin docsDir fileName) with
    | some content => some (content, filepathJoin docsDir fileName)
    | none => loadDocProbe fs docsDir rest

/-- The probe loop of `loadDocContentFromDisk`: first candidate that reads
without error and is non-empty wins; `""` when none does. -/
def firstNonEmptyRead (fs : FS) (docsDir : String) : List String → String
  | [] => ""
  | fileName :: rest =>
    match fs (filepathJoin docsDir fileName) with
    | some content =>
      if content.length > 0 then content else firstNonEmptyRead fs docsDir rest
    | none => firstNonEmptyRead fs docsDir rest

/-- loadDocContentFromDisk from main.go (the web resolver). -/
def loadDocContentFromDisk (fs : FS) (dataDir catName docName : String) : String :=
  if catName = "" ∨ docName = "" then ""
  else firstNonEmptyRead fs (filepathJoin dataDir (folderOf catName)) (webPossibleNames docName)

/-- The placeholder body `loadDoc` synthesizes on a resolution miss
(apostrophes written as \x27). -/
def notFoundContent (name category folder : String) : String :=
  "# " ++ name ++ "\n\nDocumentation not found.\n\nCategory: \x27" ++ category
    ++ "\x27\nFolder: \x27" ++ folder ++ "\x27"

/-- createItems from main.go: the synthetic README item first, then one
item per reference in category order. -/
def createItems (config : Config) : List Item :=
  ⟨"README", "Project overview and stats", "Overview"⟩ ::
    (config.categories.map fun cat =>
      cat.references.map fun ref => (⟨ref.name, ref.description, cat.name⟩ : Item)).flatten

/-- The category-lookup loop at the top of `loadDoc`: first item with the
requested name wins; `""` when none matches. -/
def findCategory (items : List Item) (name : String) : String :=
  match items.find? (fun i => i.name == name) with
  | some i => i.category
  | none => ""

/-- RenderMarkdown from main.go.  The glamour renderer (a package-level
global) is abstracted as `grender`; the source's two fallback layers query
the same renderer, so they collapse into one.  The `width` parameter is
accepted and ignored exactly as in the source. -/
def RenderMarkdown (grender : String → Option String) (content : String) (_width : Int) : String :=
  match grender content with
  | some result => if result = "" then content else result
  | none => content

/-- The goldmark conversion step used by updateWebPreview / serveMarkdown:
on a conversion error the raw markdown is written to the buffer instead. -/
def convertMarkdown (conv : String → Option String) (content : String) : String :=
  match conv content with
  | some html => html
  | none => content

/-- urlEncode from main.go. -/
def urlEncode (s : String) : String :=
  strReplaceAll (strReplaceAll (strReplaceAll s " " "-") "&" "%26") "#" "%23"

/-- generateSidebarHTML from main.go; the fixed HTML snippets are kept only
as far as they separate the data (category names, links, active markers) —
the inline style and script text is abbreviated. -/
def generateSidebarHTML (currentConfig : Option Config) (activeCat activeDoc : String) : String :=
  match currentConfig with
  | none => ""
  | some cfg =>
    let cats := String.join (cfg.categories.map fun cat =>
      let catActive := if cat.name = activeCat then " active" else ""
      let links := String.join (cat.references.map fun ref =>
        let docActive := if ref.name = activeDoc then " class=\"active\"" else ""
        "<a href=\"/?cat=" ++ urlEncode cat.name ++ "&doc=" ++ urlEncode ref.name
          ++ "\"" ++ docActive ++ ">" ++ ref.name ++ "</a>")
      "<div class=\"category" ++ catActive ++ "\"><div class=\"cat-title\">" ++ cat.name
        ++ "</div><div class=\"cat-items\">" ++ links ++ "</div></div>")
    "<div class=\"sidebar\"><div class=\"sidebar-header\">efx-motion Docs</div>" ++ cats
      ++ "<div class=\"sidebar-footer\"></div></div>"

/-- generateFullPageHTML from main.go; the fixed style/script template text
is abbreviated, keeping the data the page depends on (title, sidebar,
content) in the source's order. -/
def generateFullPageHTML (currentConfig : Option Config)
    (title content activeCat activeDoc : String) : String :=
  "<!DOCTYPE html><html><head><title>" ++ title ++ " - efx-motion</title></head><body>"
    ++ generateSidebarHTML currentConfig activeCat activeDoc
    ++ "<div class=\"content\">" ++ content ++ "</div></body></html>"

/-- The model struct from main.go.  `viewportContent` models the string
last passed to `viewport.SetContent`; the scroll widgets themselves are
external.  The render cache is an association list whose `lookup` takes
the most recent insertion, modeling the Go map. -/
structure Model where
  config : Config
  items : List Item
  filteredItems : List Item
  cursor : Int
  currentPage : Int
  itemsPerPage : Int
  filter : String
  filtering : Bool
  quitting : Bool
  width : Int
  height : Int
  activeTab : Int
  docContent : String
  viewportContent : String
  docCache : List (String × String)
  docCacheKey : String
  docPath : String
  toast : String
  toastTimer : Int
  serverRunning : Bool
deriving DecidableEq, Repr

/-- The package-level globals of main.go that the claims touch.
`httpServerUp` models `httpServer != nil`. -/
structure Globals where
  currentWorkspace : Option Workspace
  httpServerUp : Bool
  currentHTML : String
  currentDocName : String
  currentCatName : String
  currentConfig : Option Config
deriving DecidableEq, Repr

/-- loadDoc from main.go.  `welcome` abstracts `generateWelcomeContent`
(which walks the filesystem); `grender` abstracts the glamour renderer;
`dataDir` is `getDataDir()`.  Note the README branch does not assign
`docContent`, and the cache-hit branch assigns only the viewport content
and `docCacheKey`, exactly as the source does. -/
def loadDoc (fs : FS) (grender : String → Option String)
    (welcome : Config → String → String) (dataDir : String)
    (m : Model) (name : String) : Model :=
  match m.docCache.lookup name with
  | some cached => { m with viewportContent := cached, docCacheKey := name }
  | none =>
    if name = "README" then
      let welcomeContent := welcome m.config dataDir
      let rendered := RenderMarkdown grender welcomeContent (Int.tdiv (m.width * 60) 100)
      { m with docCache := (name, rendered) :: m.docCache,
               viewportContent := rendered,
               docCacheKey := name,
               docPath := filepathJoin (filepathJoin dataDir "docs") "README.md" }
    else
      let category := findCategory m.items name
      let folder := folderOf category
      let docsDir := filepathJoin dataDir folder
      match loadDocProbe fs docsDir (tuiPossibleNames name) with
      | none =>
        let nf := notFoundContent name category folder
        { m with docContent := nf,
                 docCache := (name, nf) :: m.docCache,
                 viewportContent := nf,
                 docCacheKey := name,
                 docPath := "" }
      | some (content, foundPath) =>
        let leftWidth := Int.tdiv (m.width * 40) 100
        let leftWidth := if leftWidth < 45 then 45 else leftWidth
        let docWidth := m.width - leftWidth - 4
        let rendered := RenderMarkdown grender content docWidth
        let rendered := if rendered = "" then content else rendered
        { m with docContent := content,
                 docCache := (name, rendered) :: m.docCache,
                 viewportContent := rendered,
                 docCacheKey := name,
                 docPath := foundPath }

/-- The per-item predicate of `applyFilter` (each field is matched
individually; `f` is the already-lowercased query). -/
def itemMatches (i : Item) (f : String) : Bool :=
  strContains (strToLower i.name) f
    || strContains (strToLower i.description) f
    || strContains (strToLower i.category) f

/-- filterByTab from main.go.  `activeTab` out of range would panic in Go;
the model totalizes the category index with an empty default. -/
def filterByTab (m : Model) : Model :=
  if m.activeTab = 0 then { m with filteredItems := m.items }
  else
    let catName := (m.config.categories.getD (m.activeTab - 1).toNat ⟨"", []⟩).name
    { m with filteredItems := m.items.filter (fun i => i.category == catName) }

/-- applyFilter from main.go: empty filter delegates to the tab view;
otherwise it recomputes from the full `items` list and resets cursor and
page. -/
def applyFilter (m : Model) : Model :=
  if m.filter = "" then filterByTab m
  else
    let f := strToLower m.filter
    { m with filteredItems := m.items.filter (fun i => itemMatches i f),
             cursor := 0, currentPage := 0 }

/-- getItemsPerPage from main.go. -/
def getItemsPerPage (m : Model) : Int :=
  let perPage := m.height - 14
  if perPage < 5 then 10 else perPage

/-- The `"/"` and `"?"` key cases of `Update` (identical bodies, both
returning immediately): enter filtering mode and reset the active tab. -/
def updateKeySlash (m : Model) : Model :=
  { m with filtering := true, activeTab := 0 }

/-- The `tea.WindowSizeMsg` branch of `Update` (it returns immediately, so
this is the whole effect of a resize).  `viewport.New` replaces the
viewport with a fresh, empty one; `initGlamour` rebuilds the external
renderer (held abstract in `grender`); the viewport/glamour width locals
have no further observable effect in the model. -/
def updateWindowSize (fs : FS) (grender : String → Option String)
    (welcome : Config → String → String) (dataDir : String)
    (w h : Int) (m : Model) : Model :=
  let ipp := Int.tdiv (h - 12) 2
  let m1 := { m with width := w, height := h,
                     itemsPerPage := if ipp < 5 then 5 else ipp,
                     viewportContent := "" }
  if m1.docCacheKey ≠ "" then loadDoc fs grender welcome dataDir m1 m1.docCacheKey else m1

/-- updateWebPreview from main.go: a no-op unless the server is up,
otherwise overwrite the published snapshot globals wholesale. -/
def updateWebPreview (conv : String → Option String)
    (docName catName content : String) (g : Globals) : Globals :=
  if g.httpServerUp = false then g
  else
    { g with currentDocName := docName, currentCatName := catName,
             currentHTML := generateFullPageHTML g.currentConfig docName
               (convertMarkdown conv content) catName docName }

/-- The `GET /` request handler installed by serveMarkdown.  The handler
reads the globals and assigns only locals, so the globals come back
unchanged; query parameters absent from the URL read as `""`
(`url.Values.Get`). -/
def handleRequest (fs : FS) (conv : String → Option String) (dataDir : String)
    (g : Globals) (docParam catParam : String) : String × Globals :=
  let content := if docParam ≠ "" then loadDocContentFromDisk fs dataDir catParam docParam else ""
  let html :=
    if docParam ≠ "" ∧ content ≠ "" then
      generateFullPageHTML g.currentConfig docParam (convertMarkdown conv content)
        catParam docParam
    else ""
  let html := if html = "" then g.currentHTML else html
  (html, g)

/-- The `"W"` workspace-switch branch of `Update`.  `home` feeds
ExpandTilde; `wsLoaded` is the result of LoadWorkspaceConfig (none = error);
`select` abstracts the interactive RunWorkspaceSelector; `parseConfig`
abstracts `loadConfig` (yaml.Unmarshal); `welcome` abstracts
generateWelcomeContent.  All three failure paths return immediately in the
source, so they are modeled exactly; the success path falls through to the
shared `Update` tail, which only ticks the toast countdown and scrolls the
viewport. -/
def updateKeyW (home : String) (fs : FS) (parseConfig : String → Option Config)
    (grender : String → Option String) (welcome : Config → String → String)
    (wsLoaded : Option (List Workspace)) (select : List Workspace → Option Workspace)
    (g : Globals) (m : Model) : Globals × Model :=
  let g1 := if g.httpServerUp then { g with httpServerUp := false } else g
  let m1 := if g.httpServerUp then { m with serverRunning := false } else m
  match wsLoaded with
  | none => (g1, { m1 with toast := "Failed to load workspaces", toastTimer := 30 })
  | some wss =>
    match select wss with
    | none => (g1, m1)
    | some selected =>
      let g2 := { g1 with currentWorkspace := some selected }
      let dataDir := expandTilde home selected.path
      match fs (filepathJoin dataDir "docs.yaml") with
      | none => (g2, { m1 with toast := "Failed to load docs config", toastTimer := 30 })
      | some configData =>
        match parseConfig configData with
        | none => (g2, { m1 with toast := "Failed to parse docs config", toastTimer := 30 })
        | some config =>
          let welcomeContent := welcome config dataDir
          let welcomeRendered := RenderMarkdown grender welcomeContent 60
          (g2, { m1 with
            config := config,
            items := createItems config,
            filteredItems := createItems config,
            activeTab := 0, cursor := 0, currentPage := 0, filter := "",
            viewportContent := welcomeRendered,
            docContent := welcomeContent,
            toast := "Switched to: " ++ selected.name,
            toastTimer := 30 })

/-- The `"down"`/`"k"`/space navigation branch of `Update`: advance the
cursor circularly, recompute the page, load the newly selected document,
and, when the web server is running, push the (post-`loadDoc`)
`docContent` to the web preview.  The branch falls through to the shared
`Update` tail, which only ticks the toast countdown and scrolls the
viewport. -/
def updateKeyDown (fs : FS) (grender : String → Option String)
    (welcome : Config → String → String) (conv : String → Option String)
    (dataDir : String) (g : Globals) (m : Model) : Globals × Model :=
  if m.filteredItems.length > 0 then
    let len : Int := m.filteredItems.length
    let cursor := Int.tmod (m.cursor + 1) len
    let m1 := { m with cursor := cursor }
    let m2 := { m1 with currentPage := Int.tdiv cursor (getItemsPerPage m1) }
    let sel := m2.filteredItems.getD cursor.toNat ⟨"", "", ""⟩
    let m3 := loadDoc fs grender welcome dataDir m2 sel.name
    if m3.serverRunning = true then
      (updateWebPreview conv sel.name sel.category m3.docContent g, m3)
    else (g, m3)
  else (g, m)

/-!
Definitions modelled from the spec's words, for comparison with the
source-derived definitions (refinement claims C1 and C6).
-/

/-- Modelled from the spec: "probe them in that fixed order against the
folder; return the first existing, non-empty file's content and path". -/
def resolveFirstNonEmpty (fs : FS) (docsDir : String) (names : List String) :
    Option (String × String) :=
  names.findSome? fun fileName =>
    match fs (filepathJoin docsDir fileName) with
    | some content =>
      if content.length > 0 then some (content, filepathJoin docsDir fileName) else none
    | none => none

/-- The probe order of `loadDoc` rephrased declaratively: the first
successful read wins, regardless of emptiness, with its path. -/
def resolveFirstRead (fs : FS) (docsDir : String) (names : List String) :
    Option (String × String) :=
  names.findSome? fun fileName =>
    (fs (filepathJoin docsDir fileName)).map fun content =>
      (content, filepathJoin docsDir fileName)

/-- Modelled from the spec: "case-insensitive substring match across name,
description, and category, concatenated; empty query is treated
identically to All". -/
def filterByTextSpec (items : List Item) (query : String) : List Item :=
  if query = "" then items
  else items.filter fun i =>
    strContains (strToLower (i.name ++ " " ++ i.description ++ " " ++ i.category))
      (strToLower query)

/-!
Concrete scenario data for counterexamples and witnesses.
-/

/-- A neutral concrete model: the state right after startup with one
"Core" category, the synthetic README item, and the welcome render
cached under the key "welcome" (as `main` builds it). -/
def baseModel : Model :=
  { config := ⟨"efx", "", [⟨"Core", [⟨"Install", "how to install"⟩]⟩]⟩,
    items := [⟨"README", "Project overview and stats", "Overview"⟩,
              ⟨"Install", "how to install", "Core"⟩],
    filteredItems := [⟨"README", "Project overview and stats", "Overview"⟩,
                      ⟨"Install", "how to install", "Core"⟩],
    cursor := 0, currentPage := 0, itemsPerPage := 5,
    filter := "", filtering := false, quitting := false,
    width := 100, height := 40, activeTab := 0,
    docContent := "welcome content", viewportContent := "welcome rendered",
    docCache := [("welcome", "welcome rendered")], docCacheKey := "welcome",
    docPath := "", toast := "", toastTimer := 0, serverRunning := false }

/-- Neutral concrete globals. -/
def baseGlobals : Globals :=
  { currentWorkspace := some ⟨"wsA", "/wsA"⟩, httpServerUp := false,
    currentHTML := "published snapshot", currentDocName := "welcome",
    currentCatName := "", currentConfig := none }

/-- C1 scenario filesystem: the category folder holds only `a b.md`, the
hyphens→spaces variant of the logical name `a-b`. -/
def c1fs : FS := fun p => if p = "docs/core/a b.md" then some "hi" else none

/-- C1 scenario model: the index knows `a-b` in category Core. -/
def c1m : Model :=
  { baseModel with
    config := ⟨"efx", "", [⟨"Core", [⟨"a-b", "d"⟩]⟩]⟩,
    items := [⟨"README", "Project overview and stats", "Overview"⟩, ⟨"a-b", "d", "Core"⟩],
    filteredItems := [⟨"README", "Project overview and stats", "Overview"⟩, ⟨"a-b", "d", "Core"⟩] }

/-- C6 scenario model: one item whose name/description concatenation
contains the query `"b c"` across the field boundary. -/
def c6m : Model :=
  { baseModel with
    items := [⟨"ab", "cd", "x"⟩], filteredItems := [⟨"ab", "cd", "x"⟩],
    filter := "b c" }

/-- C8 scenario model: browsing with a non-"All" category tab active. -/
def c8m : Model := { baseModel with activeTab := 1 }

/-!
Shared helper lemmas.
-/

/-- The web probe loop equals its declarative first-hit description. -/
theorem firstNonEmptyRead_eq_resolve (fs : FS) (dir : String) :
    ∀ names, firstNonEmptyRead fs dir names
      = ((resolveFirstNonEmpty fs dir names).map Prod.fst).getD ""
  | [] => by simp [firstNonEmptyRead, resolveFirstNonEmpty]
  | fileName :: rest => by
    have ih := firstNonEmptyRead_eq_resolve fs dir rest
    simp only [firstNonEmptyRead, resolveFirstNonEmpty, List.findSome?]
    cases h : fs (filepathJoin dir fileName) with
    | none => simpa [h, resolveFirstNonEmpty] using ih
    | some content =>
      by_cases hl : content.length > 0
      · simp [h, hl]
      · simpa [h, hl, resolveFirstNonEmpty] using ih

/-- The terminal probe loop equals its declarative first-hit description. -/
theorem loadDocProbe_eq_resolve (fs : FS) (dir : String) :
    ∀ names, loadDocProbe fs dir names = resolveFirstRead fs dir names
  | [] => by simp [loadDocProbe, resolveFirstRead]
  | fileName :: rest => by
    have ih := loadDocProbe_eq_resolve fs dir rest
    simp only [loadDocProbe, resolveFirstRead, List.findSome?]
    cases h : fs (filepathJoin dir fileName) with
    | none => simpa [h, resolveFirstRead] using ih
    | some content => simp [h]

/-- A full page is never the empty string (its template text is not). -/
theorem generateFullPageHTML_ne_empty (cfg : Option Config) (t c a d : String) :
    generateFullPageHTML cfg t c a d ≠ "" := by
  intro h
  have h2 := congrArg String.length h
  simp [generateFullPageHTML, String.length_append] at h2
  exact absurd h2.1.1.1.1.1.1 (by decide)

/-- `isPrefixList` holds on any extension of the needle. -/
theorem isPrefixList_self_append : ∀ (l t : List Char), isPrefixList l (l ++ t) = true
  | [], _ => rfl
  | a :: as, t => by simp [isPrefixList, isPrefixList_self_append as t]

/-- `containsList` finds the needle at the front. -/
theorem containsList_append_right (needle t : List Char) :
    containsList needle (needle ++ t) = true := by
  cases hn : needle with
  | nil =>
    cases t with
    | nil => rfl
    | cons c rest => simp [containsList, isPrefixList]
  | cons a as =>
    have hp : isPrefixList (a :: as) ((a :: as) ++ t) = true := isPrefixList_self_append _ _
    simp only [List.cons_append] at hp
    simp [containsList, hp]

/-- `containsList` finds the needle anywhere. -/
theorem containsList_append_mid (pre needle post : List Char) :
    containsList needle (pre ++ needle ++ post) = true := by
  induction pre with
  | nil => simpa using containsList_append_right needle post
  | cons c pre ih =>
    simp only [List.cons_append, containsList, Bool.or_eq_true]
    right
    simpa [List.append_assoc] using ih

/-- Substring containment from an infix decomposition. -/
theorem containsList_of_infix {needle hay : List Char} (h : needle <:+: hay) :
    containsList needle hay = true := by
  obtain ⟨s, t, rfl⟩ := h
  exact containsList_append_mid s needle t

/-!
Claim C1.
-/

/-- C1 (counterexample): with only `a b.md` — the hyphens→spaces variant of
the logical name `a-b` — on disk, the claimed five-candidate resolution
finds a non-empty file, but the terminal resolver `loadDoc` probes only
three candidates, misses, and synthesizes the not-found placeholder with an
empty path, so resolution does not "generate exactly five filename
candidates … and return the content and path of the first candidate that
exists as a non-empty file". -/
theorem claim1_counterexample :
    resolveFirstNonEmpty c1fs "docs/core" (webPossibleNames "a-b")
      = some ("hi", "docs/core/a b.md")
    ∧ loadDocProbe c1fs "docs/core" (tuiPossibleNames "a-b") = none
    ∧ (loadDoc c1fs (fun _ => none) (fun _ _ => "") "docs" c1m "a-b").docPath = ""
    ∧ (loadDoc c1fs (fun _ => none) (fun _ _ => "") "docs" c1m "a-b").docContent
        = notFoundContent "a-b" "Core" "core" := by
  refine ⟨by decide, by decide, by decide, by decide⟩

/-- C1 (amended): only the web resolver `loadDocContentFromDisk` generates
the five claimed candidates in the claimed fixed order, probes them in that
order, and returns the content — but not the path — of the first candidate
that exists as a non-empty file; the terminal resolver `loadDoc` probes
only the first three candidates (exact, spaces→hyphens, spaces removed) and
returns content and path of the first whose read succeeds, without
requiring non-emptiness. -/
theorem claim1_amended (fs : FS) (dataDir catName docName : String)
    (hcat : catName ≠ "") (hdoc : docName ≠ "") :
    webPossibleNames docName =
      [docName ++ ".md",
       strReplaceAll docName " " "-" ++ ".md",
       strReplaceAll docName " " "" ++ ".md",
       strReplaceAll docName "-" " " ++ ".md",
       strReplaceAll docName "-" "" ++ ".md"] ∧
    tuiPossibleNames docName = (webPossibleNames docName).take 3 ∧
    loadDocContentFromDisk fs dataDir catName docName
      = ((resolveFirstNonEmpty fs (filepathJoin dataDir (folderOf catName))
            (webPossibleNames docName)).map Prod.fst).getD "" ∧
    loadDocProbe fs (filepathJoin dataDir (folderOf catName)) (tuiPossibleNames docName)
      = resolveFirstRead fs (filepathJoin dataDir (folderOf catName))
          (tuiPossibleNames docName) := by
  refine ⟨rfl, rfl, ?_, loadDocProbe_eq_resolve fs _ _⟩
  simp [loadDocContentFromDisk, hcat, hdoc, firstNonEmptyRead_eq_resolve]

/-- C1 witness: the amended statement evaluated on the concrete `a-b`
scenario — the web resolver finds the hyphens→spaces variant. -/
theorem claim1_witness :
    loadDocContentFromDisk c1fs "docs" "Core" "a-b"
      = ((resolveFirstNonEmpty c1fs (filepathJoin "docs" (folderOf "Core"))
            (webPossibleNames "a-b")).map Prod.fst).getD ""
    ∧ loadDocContentFromDisk c1fs "docs" "Core" "a-b" = "hi" := by
  refine ⟨(claim1_amended c1fs "docs" "Core" "a-b" (by decide) (by decide)).2.2.1, by decide⟩

/-!
Claim C8.
-/

/-- C8 (counterexample): pressing `"/"` with the second category tab active
does not keep the active tab — the handler resets it to 0. -/
theorem claim8_counterexample : (updateKeySlash c8m).activeTab ≠ c8m.activeTab := by
  decide

/-- C8 (amended): pressing `"/"` or `"?"` in the browsing state sets the
filtering flag and resets the active category tab to 0 (the "All" tab),
while the filter buffer, the filtered view, the cursor, and the page keep
the values they had before the keypress. -/
theorem claim8_amended (m : Model) :
    (updateKeySlash m).filtering = true
    ∧ (updateKeySlash m).activeTab = 0
    ∧ (updateKeySlash m).filter = m.filter
    ∧ (updateKeySlash m).filteredItems = m.filteredItems
    ∧ (updateKeySlash m).cursor = m.cursor
    ∧ (updateKeySlash m).currentPage = m.currentPage
    ∧ (updateKeySlash m).docCache = m.docCache
    ∧ (updateKeySlash m).docCacheKey = m.docCacheKey := by
  simp [updateKeySlash]

/-!
Claim C2.
-/

/-- C2 (code-bug evidence): neither a viewport resize nor a workspace
switch empties the render cache.  The resize branch preserves the cache
verbatim whenever the current key is cached — and re-serves the stale
cached render into the fresh viewport — and the workspace-switch branch
leaves the cache untouched on every one of its paths. -/
theorem claim2_cache_kept :
    (∀ (fs : FS) (grender : String → Option String) (welcome : Config → String → String)
        (dataDir : String) (w h : Int) (m : Model) (r : String),
        m.docCacheKey ≠ "" →
        m.docCache.lookup m.docCacheKey = some r →
        (updateWindowSize fs grender welcome dataDir w h m).docCache = m.docCache ∧
        (updateWindowSize fs grender welcome dataDir w h m).viewportContent = r) ∧
    (∀ (home : String) (fs : FS) (parseConfig : String → Option Config)
        (grender : String → Option String) (welcome : Config → String → String)
        (wsLoaded : Option (List Workspace)) (select : List Workspace → Option Workspace)
        (g : Globals) (m : Model),
        ((updateKeyW home fs parseConfig grender welcome wsLoaded select g m).2).docCache
          = m.docCache) := by
  constructor
  · intro fs grender welcome dataDir w h m r hne hl
    simp [updateWindowSize, loadDoc, hne, hl]
  · intro home fs parseConfig grender welcome wsLoaded select g m
    unfold updateKeyW
    rcases wsLoaded with _ | wss
    · by_cases hs : g.httpServerUp <;> simp [hs]
    · simp only
      rcases hsel : select wss with _ | selected
      · by_cases hs : g.httpServerUp <;> simp [hs, hsel]
      · rcases hread : fs (filepathJoin (expandTilde home selected.path) "docs.yaml")
          with _ | data
        · by_cases hs : g.httpServerUp <;> simp [hs, hsel, hread]
        · rcases hparse : parseConfig data with _ | cfg
          · by_cases hs : g.httpServerUp <;> simp [hs, hsel, hread, hparse]
          · by_cases hs : g.httpServerUp <;> simp [hs, hsel, hread, hparse]

/-- C2 witness: concrete resize and workspace switch both keep the one
cached entry, and the resize re-serves the stale render. -/
theorem claim2_witness :
    (updateWindowSize (fun _ => none) (fun _ => none) (fun _ _ => "") "docs"
        60 20 baseModel).docCache = baseModel.docCache
    ∧ (updateWindowSize (fun _ => none) (fun _ => none) (fun _ _ => "") "docs"
        60 20 baseModel).viewportContent = "welcome rendered"
    ∧ ((updateKeyW "/h" (fun _ => none) (fun _ => none) (fun _ => none) (fun _ _ => "")
          none (fun _ => none) baseGlobals baseModel).2).docCache = baseModel.docCache
    ∧ baseModel.docCache ≠ [] := by
  refine ⟨(claim2_cache_kept.1 _ _ _ _ 60 20 baseModel "welcome rendered"
            (by decide) (by decide)).1,
          (claim2_cache_kept.1 _ _ _ _ 60 20 baseModel "welcome rendered"
            (by decide) (by decide)).2,
          claim2_cache_kept.2 "/h" _ _ _ _ none _ baseGlobals baseModel,
          by decide⟩

/-!
Claim C3.
-/

/-- C3 (code-bug evidence): when the newly selected workspace's docs.yaml
cannot be read, or cannot be parsed, the switch is already partially
applied — the global current-workspace reference has been repointed at the
new workspace, and a previously running web server has been stopped with
the running flag cleared — while the config, item list, filtered view,
cursor, page, tab, filter, cache and document fields keep their old values
and a transient toast is shown. -/
theorem claim3_partial_switch (home : String) (fs : FS)
    (parseConfig : String → Option Config) (grender : String → Option String)
    (welcome : Config → String → String) (wss : List Workspace)
    (select : List Workspace → Option Workspace) (g : Globals) (m : Model)
    (selected : Workspace)
    (hup : g.httpServerUp = true)
    (hsel : select wss = some selected)
    (hread : fs (filepathJoin (expandTilde home selected.path) "docs.yaml") = none) :
    (updateKeyW home fs parseConfig grender welcome (some wss) select g m).1.currentWorkspace
      = some selected
    ∧ (updateKeyW home fs parseConfig grender welcome (some wss) select g m).1.httpServerUp
      = false
    ∧ ((updateKeyW home fs parseConfig grender welcome (some wss) select g m).2).serverRunning
      = false
    ∧ ((updateKeyW home fs parseConfig grender welcome (some wss) select g m).2).config
      = m.config
    ∧ ((updateKeyW home fs parseConfig grender welcome (some wss) select g m).2).items
      = m.items
    ∧ ((updateKeyW home fs parseConfig grender welcome (some wss) select g m).2).filteredItems
      = m.filteredItems
    ∧ ((updateKeyW home fs parseConfig grender welcome (some wss) select g m).2).cursor
      = m.cursor
    ∧ ((updateKeyW home fs parseConfig grender welcome (some wss) select g m).2).currentPage
      = m.currentPage
    ∧ ((updateKeyW home fs parseConfig grender welcome (some wss) select g m).2).activeTab
      = m.activeTab
    ∧ ((updateKeyW home fs parseConfig grender welcome (some wss) select g m).2).filter
      = m.filter
    ∧ ((updateKeyW home fs parseConfig grender welcome (some wss) select g m).2).docCache
      = m.docCache
    ∧ ((updateKeyW home fs parseConfig grender welcome (some wss) select g m).2).docContent
      = m.docContent
    ∧ ((updateKeyW home fs parseConfig grender welcome (some wss) select g m).2).docPath
      = m.docPath
    ∧ ((updateKeyW home fs parseConfig grender welcome (some wss) select g m).2).toast
      = "Failed to load docs config"
    ∧ ((updateKeyW home fs parseConfig grender welcome (some wss) select g m).2).toastTimer
      = 30 := by
  unfold updateKeyW
  simp [hup, hsel, hread]

/-- C3 witness: a concrete live switch — server up, workspace `wsB`
selected, its docs.yaml unreadable — repoints the current workspace and
clears the server flag while everything else survives. -/
theorem claim3_witness :
    ((updateKeyW "/h" (fun _ => none) (fun _ => none) (fun _ => none) (fun _ _ => "")
        (some [⟨"wsB", "/wsB"⟩]) (fun _ => some ⟨"wsB", "/wsB"⟩)
        { baseGlobals with httpServerUp := true }
        { baseModel with serverRunning := true }).1).currentWorkspace
      = some ⟨"wsB", "/wsB"⟩
    ∧ ((updateKeyW "/h" (fun _ => none) (fun _ => none) (fun _ => none) (fun _ _ => "")
        (some [⟨"wsB", "/wsB"⟩]) (fun _ => some ⟨"wsB", "/wsB"⟩)
        { baseGlobals with httpServerUp := true }
        { baseModel with serverRunning := true }).2).serverRunning = false
    ∧ ((updateKeyW "/h" (fun _ => none) (fun _ => none) (fun _ => none) (fun _ _ => "")
        (some [⟨"wsB", "/wsB"⟩]) (fun _ => some ⟨"wsB", "/wsB"⟩)
        { baseGlobals with httpServerUp := true }
        { baseModel with serverRunning := true }).2).items = baseModel.items := by
  refine ⟨(claim3_partial_switch "/h" _ _ _ _ _ _ _ _ ⟨"wsB", "/wsB"⟩ rfl rfl rfl).1,
          (claim3_partial_switch "/h" _ _ _ _ _ _ _ _ ⟨"wsB", "/wsB"⟩ rfl rfl rfl).2.2.1,
          (claim3_partial_switch "/h" _ _ _ _ _ _ _ _ ⟨"wsB", "/wsB"⟩ rfl rfl rfl).2.2.2.2.1⟩

/-!
Claim C4.
-/

/-- C4 (confirmed): the `GET /` handler never writes the published
snapshot globals; with a `doc` parameter and a successful disk resolution
it serves a freshly generated page for that document; with no `doc`
parameter, or when resolution yields nothing (including a missing `cat`
parameter), it serves the published snapshot unchanged. -/
theorem claim4_handler_spec (fs : FS) (conv : String → Option String) (dataDir : String)
    (g : Globals) (docParam catParam : String) :
    (handleRequest fs conv dataDir g docParam catParam).2 = g
    ∧ (docParam = "" →
        (handleRequest fs conv dataDir g docParam catParam).1 = g.currentHTML)
    ∧ (docParam ≠ "" → loadDocContentFromDisk fs dataDir catParam docParam = "" →
        (handleRequest fs conv dataDir g docParam catParam).1 = g.currentHTML)
    ∧ (docParam ≠ "" → loadDocContentFromDisk fs dataDir catParam docParam ≠ "" →
        (handleRequest fs conv dataDir g docParam catParam).1
          = generateFullPageHTML g.currentConfig docParam
              (convertMarkdown conv (loadDocContentFromDisk fs dataDir catParam docParam))
              catParam docParam) := by
  refine ⟨rfl, ?_, ?_, ?_⟩
  · intro h
    simp [handleRequest, h]
  · intro h hc
    simp [handleRequest, h, hc]
  · intro h hc
    simp [handleRequest, h, hc, generateFullPageHTML_ne_empty]

/-- C4 witness: with `core/Install.md` on disk, `GET /?doc=Install&cat=Core`
returns a fresh page for Install while the snapshot globals are unchanged,
and a parameterless request returns the published snapshot. -/
theorem claim4_witness :
    (handleRequest (fun p => if p = "dd/core/Install.md" then some "# Hi" else none)
        (fun s => some ("<p>" ++ s ++ "</p>")) "dd" baseGlobals "Install" "Core").2
      = baseGlobals
    ∧ (handleRequest (fun p => if p = "dd/core/Install.md" then some "# Hi" else none)
        (fun s => some ("<p>" ++ s ++ "</p>")) "dd" baseGlobals "" "").1
      = baseGlobals.currentHTML
    ∧ (handleRequest (fun p => if p = "dd/core/Install.md" then some "# Hi" else none)
        (fun s => some ("<p>" ++ s ++ "</p>")) "dd" baseGlobals "Install" "Core").1
      = generateFullPageHTML baseGlobals.currentConfig "Install"
          (convertMarkdown (fun s => some ("<p>" ++ s ++ "</p>"))
            (loadDocContentFromDisk
              (fun p => if p = "dd/core/Install.md" then some "# Hi" else none)
              "dd" "Core" "Install"))
          "Core" "Install" := by
  refine ⟨(claim4_handler_spec _ _ "dd" baseGlobals "Install" "Core").1,
          (claim4_handler_spec _ _ "dd" baseGlobals "" "").2.1 rfl,
          (claim4_handler_spec _ _ "dd" baseGlobals "Install" "Core").2.2.2
            (by decide) (by decide)⟩

/-!
Claim C5.
-/

/-- C5 (confirmed): when the terminal resolver's probe finds no candidate
on disk, `loadDoc` produces — totally, with no error propagation — the
synthesized placeholder as the document content and viewport content,
caches it, records an empty path, and the placeholder textually contains
both the expected category and the expected folder name. -/
theorem claim5_not_found (fs : FS) (grender : String → Option String)
    (welcome : Config → String → String) (dataDir : String) (m : Model) (name : String)
    (hcache : m.docCache.lookup name = none)
    (hname : name ≠ "README")
    (hmiss : loadDocProbe fs (filepathJoin dataDir (folderOf (findCategory m.items name)))
        (tuiPossibleNames name) = none) :
    loadDoc fs grender welcome dataDir m name
      = { m with
          docContent := notFoundContent name (findCategory m.items name)
            (folderOf (findCategory m.items name)),
          docCache := (name, notFoundContent name (findCategory m.items name)
            (folderOf (findCategory m.items name))) :: m.docCache,
          viewportContent := notFoundContent name (findCategory m.items name)
            (folderOf (findCategory m.items name)),
          docCacheKey := name,
          docPath := "" }
    ∧ strContains
        (notFoundContent name (findCategory m.items name) (folderOf (findCategory m.items name)))
        (findCategory m.items name) = true
    ∧ strContains
        (notFoundContent name (findCategory m.items name) (folderOf (findCategory m.items name)))
        (folderOf (findCategory m.items name)) = true := by
  refine ⟨?_, ?_, ?_⟩
  · simp [loadDoc, hcache, hname, hmiss]
  · apply containsList_of_infix
    refine ⟨("# " ++ name ++ "\n\nDocumentation not found.\n\nCategory: \x27").data,
            ("\x27\nFolder: \x27" ++ folderOf (findCategory m.items name) ++ "\x27").data, ?_⟩
    simp [notFoundContent, String.data_append, List.append_assoc]
  · apply containsList_of_infix
    refine ⟨("# " ++ name ++ "\n\nDocumentation not found.\n\nCategory: \x27"
              ++ findCategory m.items name ++ "\x27\nFolder: \x27").data,
            ("\x27" : String).data, ?_⟩
    simp [notFoundContent, String.data_append, List.append_assoc]

/-- C5 witness: resolving the unknown document `Ghost` (category-less, so
folder `core`) on an empty filesystem yields the placeholder and an empty
path. -/
theorem claim5_witness :
    loadDoc (fun _ => none) (fun _ => none) (fun _ _ => "") "docs" baseModel "Ghost"
      = { baseModel with
          docContent := notFoundContent "Ghost" "" "core",
          docCache := ("Ghost", notFoundContent "Ghost" "" "core") :: baseModel.docCache,
          viewportContent := notFoundContent "Ghost" "" "core",
          docCacheKey := "Ghost",
          docPath := "" }
    ∧ strContains (notFoundContent "Ghost" "" "core") "core" = true := by
  have h := claim5_not_found (fun _ => none) (fun _ => none) (fun _ _ => "") "docs"
    baseModel "Ghost" (by decide) (by decide) (by decide)
  refine ⟨?_, ?_⟩
  · have h1 := h.1
    simpa using h1
  · have h2 := h.2.2
    simpa using h2

/-!
Claim C6.
-/

/-- C6 (counterexample): the item ⟨"ab", "cd", "x"⟩ matches the query
`"b c"` under the claimed concatenated match (its name/description
concatenation contains `"b c"`), yet `applyFilter` drops it — the code
matches each field individually, so the claimed view and the code's view
differ. -/
theorem claim6_counterexample :
    filterByTextSpec c6m.items c6m.filter = [⟨"ab", "cd", "x"⟩]
    ∧ (applyFilter c6m).filteredItems = [] := by
  refine ⟨by decide, by decide⟩

/-- C6 (amended): text filtering matches the lowercased query against each
of the item's name, description, and category individually (an item
survives when any single field contains the query); with the "All" tab
active — as entering filter mode guarantees — the empty query returns the
full item set; a non-empty query produces an order-preserving sublist
whose members are exactly the matching items. -/
theorem claim6_amended (m : Model) :
    (m.filter = "" → m.activeTab = 0 → (applyFilter m).filteredItems = m.items)
    ∧ (m.filter ≠ "" →
        ((applyFilter m).filteredItems).Sublist m.items
        ∧ (∀ i, i ∈ (applyFilter m).filteredItems
            ↔ i ∈ m.items ∧ itemMatches i (strToLower m.filter) = true)) := by
  constructor
  · intro h ht
    simp [applyFilter, h, filterByTab, ht]
  · intro h
    refine ⟨?_, ?_⟩
    · simp only [applyFilter, h, if_neg h]
      exact List.filter_sublist m.items
    · intro i
      simp [applyFilter, h, List.mem_filter]

/-- C6 witness: the amended characterization evaluated on the concrete
one-item state with query `"b c"`: the view is a sublist, and the item is
excluded because no single field contains the query. -/
theorem claim6_witness :
    ((applyFilter c6m).filteredItems).Sublist c6m.items
    ∧ ((⟨"ab", "cd", "x"⟩ : Item) ∈ (applyFilter c6m).filteredItems
        ↔ (⟨"ab", "cd", "x"⟩ : Item) ∈ c6m.items
          ∧ itemMatches ⟨"ab", "cd", "x"⟩ (strToLower c6m.filter) = true) := by
  refine ⟨((claim6_amended c6m).2 (by decide)).1, ((claim6_amended c6m).2 (by decide)).2 _⟩

/-!
Claim C7.
-/

/-- C7 (confirmed): `applyFilter` is idempotent on the whole model state —
it recomputes from the full item set, so a second application with the
same buffered query changes nothing — and filtering with an empty buffer
yields exactly the no-filter view (the active tab's view), which is the
full item set when the "All" tab is active. -/
theorem claim7_idempotent (m : Model) :
    applyFilter (applyFilter m) = applyFilter m
    ∧ (applyFilter { m with filter := "" }).filteredItems = (filterByTab m).filteredItems
    ∧ (m.activeTab = 0 →
        (applyFilter { m with filter := "" }).filteredItems = m.items) := by
  refine ⟨?_, ?_, ?_⟩
  · by_cases h : m.filter = ""
    · by_cases ht : m.activeTab = 0 <;> simp [applyFilter, filterByTab, h, ht]
    · simp [applyFilter, filterByTab, h]
  · by_cases ht : m.activeTab = 0 <;> simp [applyFilter, filterByTab, ht]
  · intro ht
    simp [applyFilter, filterByTab, ht]

/-- C7 witness: on the startup state (empty filter, "All" tab), a double
application equals a single one and the empty query yields the full item
set. -/
theorem claim7_witness :
    applyFilter (applyFilter baseModel) = applyFilter baseModel
    ∧ (applyFilter { baseModel with filter := "" }).filteredItems = baseModel.items := by
  exact ⟨(claim7_idempotent baseModel).1, (claim7_idempotent baseModel).2.2 (by decide)⟩

/-!
Claim C10.
-/

/-- C10 (confirmed): on a render-cache hit, `loadDoc` updates only the
viewport content and the current cache key — the whole resulting state is
the old one with exactly those two fields replaced, so `docContent` and
`docPath` still describe the previously resolved document.  Consequently,
when down-navigation selects a cached document while the web server runs,
the pushed snapshot is generated from the previous document's raw content,
and the state's `docContent`/`docPath` (used by the clipboard copy) still
belong to the previous document. -/
theorem claim10_cache_hit_frame (fs : FS) (grender : String → Option String)
    (welcome : Config → String → String) (conv : String → Option String)
    (dataDir : String) (g : Globals) (m : Model) (name cached : String)
    (hhit : m.docCache.lookup name = some cached) :
    loadDoc fs grender welcome dataDir m name
      = { m with viewportContent := cached, docCacheKey := name }
    ∧ (m.filteredItems.length > 0 →
        (m.filteredItems.getD (Int.tmod (m.cursor + 1) (m.filteredItems.length : Int)).toNat
            ⟨"", "", ""⟩).name = name →
        m.serverRunning = true →
        g.httpServerUp = true →
        (updateKeyDown fs grender welcome conv dataDir g m).1.currentHTML
            = generateFullPageHTML g.currentConfig name (convertMarkdown conv m.docContent)
                (m.filteredItems.getD
                  (Int.tmod (m.cursor + 1) (m.filteredItems.length : Int)).toNat
                  ⟨"", "", ""⟩).category name
        ∧ ((updateKeyDown fs grender welcome conv dataDir g m).2).docContent = m.docContent
        ∧ ((updateKeyDown fs grender welcome conv dataDir g m).2).docPath = m.docPath) := by
  constructor
  · simp [loadDoc, hhit]
  · intro hlen hsel hrun hup
    simp only [updateKeyDown, hlen, if_pos hlen]
    simp only [loadDoc]
    simp only [hsel]
    simp [hhit, hrun, updateWebPreview, hup]

/-- C10 witness: with documents A (current, raw content `"raw A"`, path
`"docs/core/A.md"`) and B (cached render only), pressing down onto B pushes
a web page generated from A's raw content and leaves `docContent`/`docPath`
pointing at A. -/
theorem claim10_witness :
    (updateKeyDown (fun _ => none) (fun _ => none) (fun _ _ => "")
        (fun s => some ("<p>" ++ s ++ "</p>")) "docs"
        { baseGlobals with httpServerUp := true }
        { baseModel with
          filteredItems := [⟨"A", "", "Core"⟩, ⟨"B", "", "Core"⟩],
          docCache := [("B", "renderB"), ("A", "renderA")],
          docCacheKey := "A", docContent := "raw A", docPath := "docs/core/A.md",
          serverRunning := true }).1.currentHTML
      = generateFullPageHTML baseGlobals.currentConfig "B"
          (convertMarkdown (fun s => some ("<p>" ++ s ++ "</p>")) "raw A") "Core" "B"
    ∧ ((updateKeyDown (fun _ => none) (fun _ => none) (fun _ _ => "")
        (fun s => some ("<p>" ++ s ++ "</p>")) "docs"
        { baseGlobals with httpServerUp := true }
        { baseModel with
          filteredItems := [⟨"A", "", "Core"⟩, ⟨"B", "", "Core"⟩],
          docCache := [("B", "renderB"), ("A", "renderA")],
          docCacheKey := "A", docContent := "raw A", docPath := "docs/core/A.md",
          serverRunning := true }).2).docContent = "raw A"
    ∧ ((updateKeyDown (fun _ => none) (fun _ => none) (fun _ _ => "")
        (fun s => some ("<p>" ++ s ++ "</p>")) "docs"
        { baseGlobals with httpServerUp := true }
        { baseModel with
          filteredItems := [⟨"A", "", "Core"⟩, ⟨"B", "", "Core"⟩],
          docCache := [("B", "renderB"), ("A", "renderA")],
          docCacheKey := "A", docContent := "raw A", docPath := "docs/core/A.md",
          serverRunning := true }).2).docPath = "docs/core/A.md" := by
  have h := (claim10_cache_hit_frame (fun _ => none) (fun _ => none) (fun _ _ => "")
      (fun s => some ("<p>" ++ s ++ "</p>")) "docs"
      { baseGlobals with httpServerUp := true }
      { baseModel with
        filteredItems := [⟨"A", "", "Core"⟩, ⟨"B", "", "Core"⟩],
        docCache := [("B", "renderB"), ("A", "renderA")],
        docCacheKey := "A", docContent := "raw A", docPath := "docs/core/A.md",
        serverRunning := true } "B" "renderB" (by decide)).2
      (by decide) (by decide) (by decide) (by decide)
  refine ⟨?_, ?_, ?_⟩
  · simpa using h.1
  · simpa using h.2.1
  · simpa using h.2.2

end EfxDoc
